import Mathlib

/-!
Verification development for the RVG_DSS collision-avoidance core.

The Python sources are shallowly embedded: floating-point numbers are
modelled as exact rationals (`ℚ`) where the code is pure arithmetic and
comparisons, and as real numbers (`ℝ`) where the code uses `sqrt`,
`sin`/`cos` or `atan2`.  External libraries (pymap3d's geodetic↔ENU
transform, scipy's Butterworth filter, the 4-DOF hydrodynamic integrator
`int_RVGMan4`) are modelled as uninterpreted function parameters, as the
specification treats them as pure external contracts.
-/

namespace RVG

/-- Encounter categories, from `colav/enums.py` (`Encounters`). -/
inductive Encounters
  | SAFE
  | OVERTAKING_STAR
  | OVERTAKING_PORT
  | HEADON
  | GIVEWAY
  | STANDON
  deriving DecidableEq, Repr

/-- Range situations, from `colav/enums.py` (`Range_Situation`). -/
inductive RangeSituation
  | INCREASING
  | CLOSING_IN
  deriving DecidableEq, Repr

/-! ## GeoTransform: `simulation/simulation_transform.py` -/

/-- Python's `s.find(p) == 0` test: the string `s` starts with `p`. -/
def strStarts (p s : String) : Bool := p.data.isPrefixOf s.data

/-- `math.trunc`: round toward zero. -/
def mathTrunc {α : Type} [LinearOrderedField α] [FloorRing α] (x : α) : ℤ :=
  if 0 ≤ x then ⌊x⌋ else ⌈x⌉

/-- The conversion factor stored in `simulation_transform.__init__` as
`self.mps_in_kn = 0.51444`. -/
def mps_in_kn : ℚ := 51444 / 100000

/-- `simulation_transform.kn_to_mps(knot) = knot * self.mps_in_kn`. -/
def kn_to_mps {α : Type} [LinearOrderedField α] (knot : α) : α :=
  knot * (mps_in_kn : ℚ)

/-- `simulation_transform.m_to_nm` (`m_in_nm = 1852`). -/
def m_to_nm {α : Type} [LinearOrderedField α] (m : α) : α := m / 1852

/-- `simulation_transform.nm_to_deg` (`nm_in_deg = 60`). -/
def nm_to_deg {α : Type} [LinearOrderedField α] (nm : α) : α := nm / 60

/-- `simulation_transform.deg_2_dec(coord, dir)`.

The source body starts with `dir = 1`, rebinding the direction parameter
to the number 1 before the test `if dir == "S" or dir == "W"`; that test
therefore compares the number 1 with a string and never fires, so the
returned sign is always `+1` regardless of the direction argument. -/
def deg_2_dec {α : Type} [LinearOrderedField α] [FloorRing α]
    (coord : α) (_dir : String) : α :=
  let sign : α := 1
  let deg : α := (mathTrunc (coord / 100) : ℤ)
  let dec : α := (coord / 100 - deg) * (10 / 6)
  sign * (deg + dec)

/-! ## Hysteresis FSM: `colav/encounter_classifier_dsm.py` -/

/-- The six threshold parameters of `encounter_classifier_dsm.__init__`. -/
structure DsmParams (α : Type) where
  d_enter_up_cpa : α
  t_enter_up_cpa : α
  t_enter_low_cpa : α
  d_exit_low_cpa : α
  t_exit_low_cpa : α
  t_exit_up_cpa : α

/-- The entry predicate computed in `encounter_classifier_dsm.update`
(`self._entry`). -/
def dsmEntry {α : Type} [LinearOrderedField α] (P : DsmParams α)
    (d_at_cpa t_2_cpa : α) : Prop :=
  d_at_cpa < P.d_enter_up_cpa ∧
    (t_2_cpa > P.t_enter_low_cpa ∧ t_2_cpa < P.t_enter_up_cpa)

/-- The exit predicate computed in `encounter_classifier_dsm.update`
(`self._exit`). -/
def dsmExit {α : Type} [LinearOrderedField α] (P : DsmParams α)
    (d_at_cpa t_2_cpa : α) : Prop :=
  d_at_cpa ≥ P.d_exit_low_cpa ∨
    (t_2_cpa < P.t_exit_low_cpa ∨ t_2_cpa > P.t_exit_up_cpa)

instance {α : Type} [LinearOrderedField α] (P : DsmParams α) (d t : α) :
    Decidable (dsmEntry P d t) := by unfold dsmEntry; infer_instance

instance {α : Type} [LinearOrderedField α] (P : DsmParams α) (d t : α) :
    Decidable (dsmExit P d t) := by unfold dsmExit; infer_instance

/-- `encounter_classifier_dsm.update(encounter, d_at_cpa, t_2_cpa)`.

The entry block attempts the five `SAFE → X` transitions in sequence;
each is gated on the current state being `SAFE` and the corresponding
`guard_safe_to_*` (classification equals `X`, `self._entry` holds, state
is `SAFE`), so at most one fires.  The exit block runs only when
`self._exit` holds; each `X → SAFE` transition there carries the library
guard `guard_any_to_safe` (classification is `SAFE` or `self._exit`, and
state is not `SAFE`), which always holds at those call sites. -/
def dsmUpdate {α : Type} [LinearOrderedField α] (P : DsmParams α)
    (state : Encounters) (encounter : Encounters) (d_at_cpa t_2_cpa : α) :
    Encounters :=
  let s1 :=
    if dsmEntry P d_at_cpa t_2_cpa then
      if state = .SAFE ∧ encounter = .OVERTAKING_STAR then .OVERTAKING_STAR
      else if state = .SAFE ∧ encounter = .OVERTAKING_PORT then .OVERTAKING_PORT
      else if state = .SAFE ∧ encounter = .HEADON then .HEADON
      else if state = .SAFE ∧ encounter = .GIVEWAY then .GIVEWAY
      else if state = .SAFE ∧ encounter = .STANDON then .STANDON
      else state
    else state
  if dsmExit P d_at_cpa t_2_cpa then
    if s1 = .OVERTAKING_STAR ∧
        ((encounter = .SAFE ∨ dsmExit P d_at_cpa t_2_cpa) ∧ s1 ≠ .SAFE) then .SAFE
    else if s1 = .OVERTAKING_PORT ∧
        ((encounter = .SAFE ∨ dsmExit P d_at_cpa t_2_cpa) ∧ s1 ≠ .SAFE) then .SAFE
    else if s1 = .HEADON ∧
        ((encounter = .SAFE ∨ dsmExit P d_at_cpa t_2_cpa) ∧ s1 ≠ .SAFE) then .SAFE
    else if s1 = .GIVEWAY ∧
        ((encounter = .SAFE ∨ dsmExit P d_at_cpa t_2_cpa) ∧ s1 ≠ .SAFE) then .SAFE
    else if s1 = .STANDON ∧
        ((encounter = .SAFE ∨ dsmExit P d_at_cpa t_2_cpa) ∧ s1 ≠ .SAFE) then .SAFE
    else s1
  else s1

/-- The FSM thresholds built in `colav_manager.__init__` with the default
`safety_radius_m = 25`: `d_enter_up = 25·1.5`, `t_enter_up = 600`,
`t_enter_low = 0`, `d_exit_low = 25·2`, `t_exit_low = 0`, `t_exit_up = 650`. -/
def colavDsmParams : DsmParams ℚ :=
  { d_enter_up_cpa := 25 * (3/2)
    t_enter_up_cpa := 600
    t_enter_low_cpa := 0
    d_exit_low_cpa := 25 * 2
    t_exit_low_cpa := 0
    t_exit_up_cpa := 650 }

/-! ## CBF domain table: `colav/colav_manager.py` -/

/-- A polygonal ship-domain entry `{d: [...], z1: [...], z2: [...]}` as held
in `colav_manager.cbf_domains` and `cbf_domains.json`. -/
structure DomainEntry where
  d : List ℚ
  z1 : List ℚ
  z2 : List ℚ
  deriving DecidableEq, Repr

/-- The in-memory domain table: a JSON-style dictionary keyed by the
encounter-class string. -/
abbrev DomainTable := List (String × DomainEntry)

/-- Python dictionary equality (`==` on dicts): the two tables have the same
keys and associate equal entries to each key. -/
def dictEq (a b : DomainTable) : Prop :=
  (∀ k ∈ a.map Prod.fst, b.lookup k = a.lookup k) ∧
    (∀ k ∈ b.map Prod.fst, a.lookup k = b.lookup k)

instance (a b : DomainTable) : Decidable (dictEq a b) := by
  unfold dictEq; infer_instance

/-- `colav_manager.update_cbf_domain_data`: when the websocket's received
data holds a `"cbf_domains"` table that differs (dict equality) from the
current one, the in-memory table is wholesale replaced by it and written to
`cbf_domains.json`; the returned `Bool` records whether the file was
written.  The source performs no validation of the received keys. -/
def update_cbf_domain_data (received : Option DomainTable)
    (current : DomainTable) : DomainTable × Bool :=
  match received with
  | none => (current, false)
  | some tbl => if dictEq current tbl then (current, false) else (tbl, true)

/-- The six encounter-class keys of the domain table (§6.4). -/
def encounterClassKeys : List String :=
  ["SAFE", "OVERTAKING_STAR", "OVERTAKING_PORT", "HEADON", "GIVEWAY",
    "STANDON"]

/-- A table is missing a class when some of the six keys has no entry. -/
def missingClassKey (tbl : DomainTable) : Prop :=
  ∃ k ∈ encounterClassKeys, tbl.lookup k = none

instance (tbl : DomainTable) : Decidable (missingClassKey tbl) := by
  unfold missingClassKey; infer_instance

/-- The initial table built in `colav_manager.__init__` (six classes, empty
arrays). -/
def defaultCbfDomains : DomainTable :=
  encounterClassKeys.map (fun k => (k, ⟨[], [], []⟩))

/-- An inbound table missing the `STANDON` class. -/
def fiveKeyTable : DomainTable :=
  [("SAFE", ⟨[], [], []⟩), ("OVERTAKING_STAR", ⟨[], [], []⟩),
    ("OVERTAKING_PORT", ⟨[], [], []⟩), ("HEADON", ⟨[], [], []⟩),
    ("GIVEWAY", ⟨[], [], []⟩)]

/-! ## SimServer: `simulation/simulation_server.py`

Float-valued message fields are modelled as real numbers; scipy's
`filtfilt` low-pass routine and pymap3d's `enu2geodetic` are external
libraries, modelled as uninterpreted function parameters (`lp`, `enu2geo`). -/

/-- `math.radians` / `np.deg2rad`. -/
noncomputable def radians (x : ℝ) : ℝ := x * Real.pi / 180

/-- The fields of a parsed record as routed by `simulation_server`; python
dict keys that may be absent are `Option`s. -/
structure SimMsg where
  message_id : String
  lat : Option ℝ := none
  lon : Option ℝ := none
  course : Option ℝ := none
  speed : Option ℝ := none
  head_deg : Option ℝ := none
  lat_dir : String := ""
  lon_dir : String := ""
  lat_p : Option ℝ := none
  lon_p : Option ℝ := none
  pos_history : List (ℝ × ℝ) := []

/-- Per-MMSI AIS history (`simulation_server.ais_history` values). -/
structure AisHist where
  lon_history : List ℝ
  lat_history : List ℝ
  pos_history : List (ℝ × ℝ)
  course_history : List ℝ := []
  filtered_course : Option ℝ := none

/-- `simulation_server._lp_filter_data`: `None` below 15 samples, otherwise
scipy's forward-backward Butterworth filter (external, parameter `lp`). -/
def lpFilterData (lp : List ℝ → List ℝ) (data : List ℝ) :
    Option (List ℝ) :=
  if data.length < 15 then none else some (lp data)

/-- `simulation_server.ais_history_len`. -/
def ais_history_len : ℕ := 30

/-- `simulation_server._set_history`: append the record's lat/lon/course to
the per-MMSI histories, low-pass filter them when long enough, publish the
smoothed `pos_history` and `course` back onto the message, and evict the
oldest samples beyond `ais_history_len`. -/
def set_history (lp : List ℝ → List ℝ) (hist : List (String × AisHist))
    (msg : SimMsg) : List (String × AisHist) × SimMsg :=
  if strStarts "!AI" msg.message_id then
    if msg.lat.isSome ∧ msg.lon.isSome then
      let mid := msg.message_id
      let lat := msg.lat.getD 0
      let lon := msg.lon.getD 0
      let has_course := msg.course.isSome
      let course := msg.course.getD 0
      match hist.lookup mid with
      | some h =>
        let lon_h := h.lon_history ++ [lon]
        let filt_lon := lpFilterData lp lon_h
        let lat_h := h.lat_history ++ [lat]
        let filt_lat := lpFilterData lp lat_h
        let pos_h :=
          match filt_lon, filt_lat with
          | some fo, some fa => fo.zip fa
          | _, _ => lon_h.zip lat_h
        let course_h :=
          if has_course then h.course_history ++ [course] else h.course_history
        let filtered_course :=
          if has_course then
            match lpFilterData lp course_h with
            | some fc => some (fc.getLast?.getD 0)
            | none => some course
          else h.filtered_course
        let lon_h := if lon_h.length > ais_history_len then lon_h.drop 1 else lon_h
        let lat_h := if lat_h.length > ais_history_len then lat_h.drop 1 else lat_h
        let course_h :=
          if has_course ∧ course_h.length > ais_history_len then course_h.drop 1
          else course_h
        let hrec : AisHist := ⟨lon_h, lat_h, pos_h, course_h, filtered_course⟩
        let hist' := hist.map (fun kv => if kv.1 = mid then (kv.1, hrec) else kv)
        (hist', { msg with pos_history := pos_h,
                           course := if has_course then filtered_course else msg.course })
      | none =>
        let hrec : AisHist :=
          ⟨[lon], [lat], [], if has_course then [course] else [],
            if has_course then some course else none⟩
        (hist ++ [(mid, hrec)],
          { msg with pos_history := [],
                     course := if has_course then some course else msg.course })
    else (hist, msg)
  else (hist, msg)

/-- `simulation_server._set_predicted_position`: for a moving record,
project forward by `predicted_interval` seconds in a local tangent frame
and write back `lat_p`, `lon_p`.  `enu2geo x y lat lon` stands for the
external `pymap3d.enu2geodetic`-based `xyz_to_coords`. -/
noncomputable def set_predicted_position (enu2geo : ℝ → ℝ → ℝ → ℝ → ℝ × ℝ)
    (interval : ℝ) (msg : SimMsg) : SimMsg :=
  if (msg.course.isSome ∧ msg.speed.isSome) ∧ 0 < msg.speed.getD 0 then
    let speed := kn_to_mps (msg.speed.getD 0)
    let x := Real.sin (radians (msg.course.getD 0)) * speed * interval
    let y := Real.cos (radians (msg.course.getD 0)) * speed * interval
    let ll := enu2geo x y (msg.lat.getD 0) (msg.lon.getD 0)
    { msg with lat_p := some ll.1, lon_p := some ll.2 }
  else msg

/-- `math.sqrt`-based Euclidean distance (`simulation_server.dist`). -/
noncomputable def sDist (p q : ℝ × ℝ) : ℝ :=
  Real.sqrt ((q.1 - p.1) ^ 2 + (q.2 - p.2) ^ 2)

/-- The ColavCoordinator-owned inputs fed by the SimServer ingress path. -/
structure ColavState where
  gunnerus_data : Option SimMsg := none
  ais_data : List (String × SimMsg) := []

/-- `colav_manager.update_ais_data`: `self._ais_data[data.message_id] = data`. -/
def updateAisData (m : List (String × SimMsg)) (msg : SimMsg) :
    List (String × SimMsg) :=
  if (m.lookup msg.message_id).isSome then
    m.map (fun kv => if kv.1 = msg.message_id then (kv.1, msg) else kv)
  else m ++ [(msg.message_id, msg)]

/-- The mutable state of `simulation_server` visible to `_send`. -/
structure ServerState where
  gunnerus_lat : Option ℝ := none
  gunnerus_lon : Option ℝ := none
  rvg_heading : Option ℝ := none
  rvg_state : Option SimMsg := none
  ais_history : List (String × AisHist) := []
  colav : ColavState := {}
  sent : List SimMsg := []
  websocket_enable : Bool := true
  distance_filter : ℝ := 1
  predicted_interval : ℝ := 30

/-- `simulation_server._validate_coords(msg, distance)`: `False` while the
own-ship coordinates are unset; for an AIS record carrying lat/lon, checks
the geodetic-degree distance gate. -/
noncomputable def validate_coords (st : ServerState) (msg : SimMsg)
    (distance : ℝ) : Bool :=
  if st.gunnerus_lat.isNone ∨ st.gunnerus_lon.isNone then false
  else if strStarts "!AI" msg.message_id then
    if msg.lat.isSome ∧ msg.lon.isSome then
      decide (sDist (msg.lat.getD 0, msg.lon.getD 0)
        (st.gunnerus_lat.getD 0, st.gunnerus_lon.getD 0) < distance)
    else false
  else false

/-- `simulation_server._send(message)`: route one record — update own-ship
heading/coordinates for `$PSIMSNS`/`$GPRMC`, forward passthroughs on the
websocket, and, when the distance gate passes, deliver AIS records to the
ColavCoordinator's AIS map and forward the decorated record. -/
noncomputable def server_send (lp : List ℝ → List ℝ)
    (enu2geo : ℝ → ℝ → ℝ → ℝ → ℝ × ℝ) (st : ServerState) (msg : SimMsg) :
    ServerState :=
  let st :=
    if msg.message_id = "$PSIMSNS" then
      let st := { st with rvg_heading := msg.head_deg }
      if st.websocket_enable then { st with sent := st.sent ++ [msg] } else st
    else st
  let st :=
    if msg.message_id = "$GPGGA" then
      if st.websocket_enable then { st with sent := st.sent ++ [msg] } else st
    else st
  let st :=
    if msg.message_id = "$GPRMC" then
      let st :=
        { st with
            gunnerus_lon := some (deg_2_dec (msg.lon.getD 0) msg.lon_dir)
            gunnerus_lat := some (deg_2_dec (msg.lat.getD 0) msg.lat_dir)
            colav := { st.colav with gunnerus_data := some msg }
            rvg_state := some msg }
      if st.websocket_enable then { st with sent := st.sent ++ [msg] } else st
    else st
  if validate_coords st msg st.distance_filter then
    let valid_ais := strStarts "!" msg.message_id ∧ (msg.lat.isSome ∧ msg.lon.isSome)
    let st :=
      if valid_ais then
        { st with colav := { st.colav with ais_data := updateAisData st.colav.ais_data msg } }
      else st
    if st.websocket_enable then
      let hm := set_history lp st.ais_history msg
      let msg2 := set_predicted_position enu2geo st.predicted_interval hm.2
      { st with ais_history := hm.1, sent := st.sent ++ [msg2] }
    else st
  else st

/-! ## ARPA engine: `colav/ARPA.py`

All geometry is over `ℝ`.  `pymap3d.geodetic2enu` (used by
`simulation_transform.coords_to_xyz`) is an external library, modelled as
the uninterpreted parameter `g`. -/

/-- `np.isclose(a, b)` with numpy's default tolerances
(`rtol = 1e-5`, `atol = 1e-8`). -/
noncomputable def npIsClose (a b : ℝ) : Bool :=
  decide (|a - b| ≤ 1e-8 + 1e-5 * |b|)

/-- The local-frame AIS record (`colav_types.AIS_NED`) with its dataclass
defaults. -/
structure AisNed where
  po_x : ℝ
  po_y : ℝ
  uo : ℝ
  zo : ℝ × ℝ
  uo_x : ℝ
  uo_y : ℝ
  course : ℝ
  mmsi : String
  cpa : Bool := false
  d_at_cpa : ℝ := 0
  d_2_cpa : ℝ := 0
  t_2_cpa : ℝ := 0
  x_at_cpa : ℝ := 0
  y_at_cpa : ℝ := 0
  o_x_at_cpa : ℝ := 0
  o_y_at_cpa : ℝ := 0
  safety_params : Bool := false
  t_2_r : ℝ := 0
  t_x_at_r : ℝ := 0
  t_y_at_r : ℝ := 0
  x_at_r : ℝ := 0
  y_at_r : ℝ := 0
  d_2_r : ℝ := 0

/-- Own-ship local-frame record (`colav_types.RVG_NED`). -/
structure RvgNed where
  p : ℝ × ℝ
  u : ℝ
  ux : ℝ
  uy : ℝ
  z : ℝ × ℝ
  tq : ℝ × ℝ
  lon : ℝ
  lat : ℝ
  course : ℝ

/-- A parsed AIS position report as consumed by `arpa._get_ais_data`;
course and speed keys may be absent (`None`). -/
structure AisMessage where
  mmsi : String
  lon : ℝ
  lat : ℝ
  course : Option ℝ := none
  speed : Option ℝ := none

/-- The GPRMC own-ship record consumed by `arpa._get_gunnerus_data`. -/
structure GunnerusMsg where
  lat : ℝ
  lat_dir : String
  lon : ℝ
  lon_dir : String
  spd_over_grnd : ℝ
  true_course : ℝ

/-- The constructor parameters of `arpa`. -/
structure ArpaParams where
  safety_radius_m : ℝ
  safety_radius_tol : ℝ := 3 / 2
  max_d_2_cpa : ℝ := 2000
  gunnerus_mmsi : String := ""

/-- The external `pymap3d.geodetic2enu` transform:
`(lat, lon, h, lat₀, lon₀, h₀) ↦ (east, north, up)`. -/
def Geodetic2Enu : Type := ℝ → ℝ → ℝ → ℝ → ℝ → ℝ → ℝ × ℝ × ℝ

/-- `simulation_transform.coords_to_xyz`. -/
noncomputable def coords_to_xyz (g : Geodetic2Enu)
    (northings eastings altitude y_o x_o z_o : ℝ) : ℝ × ℝ × ℝ :=
  let enu := g northings eastings altitude y_o x_o z_o
  (enu.1, enu.2.1, altitude - z_o)

/-- `arpa._get_ais_data(ais_message, gunnerus_data)`. -/
noncomputable def get_ais_data (g : Geodetic2Enu) (msg : AisMessage)
    (gunn : RvgNed) : AisNed :=
  let course := msg.course.getD 0
  let speed_kn := msg.speed.getD 0
  let po := coords_to_xyz g msg.lat msg.lon 0 gunn.lat gunn.lon 0
  let uo := kn_to_mps speed_kn
  let zo : ℝ × ℝ := (Real.sin (radians course), Real.cos (radians course))
  { po_x := po.1, po_y := po.2.1, uo := uo, zo := zo,
    uo_x := zo.1 * uo, uo_y := zo.2 * uo, course := course, mmsi := msg.mmsi }

/-- `arpa._get_gunnerus_data()`. -/
noncomputable def get_gunnerus_data (msg : Option GunnerusMsg) :
    Option RvgNed :=
  match msg with
  | none => none
  | some m =>
    let gunn_lat := deg_2_dec m.lat m.lat_dir
    let gunn_lon := deg_2_dec m.lon m.lon_dir
    let z : ℝ × ℝ :=
      (Real.sin (radians m.true_course), Real.cos (radians m.true_course))
    let tq : ℝ × ℝ :=
      (Real.sin (radians m.true_course), Real.cos (radians m.true_course))
    let u := kn_to_mps m.spd_over_grnd
    some { p := (0, 0), u := u, ux := u * z.1, uy := u * z.2, z := z,
           tq := tq, lon := gunn_lon, lat := gunn_lat,
           course := m.true_course }

/-- The CPA record (`colav_types.CPA`). -/
structure CpaRec where
  d_at_cpa : ℝ
  d_2_cpa : ℝ
  t_2_cpa : ℝ
  x_at_cpa : ℝ
  y_at_cpa : ℝ
  o_x_at_cpa : ℝ
  o_y_at_cpa : ℝ

/-- `arpa._get_cpa(gunn_data, ais_data_item)`: relative-velocity CPA
geometry, `None` when the relative speed is (numerically) zero or the
own-ship distance to the CPA point exceeds `max_d_2_cpa`. -/
noncomputable def get_cpa (P : ArpaParams) (gunn : RvgNed) (a : AisNed) :
    Option CpaRec :=
  let urx := a.uo_x - gunn.ux
  let ury := a.uo_y - gunn.uy
  let ur := Real.sqrt (urx ^ 2 + ury ^ 2)
  if npIsClose ur 0 then none
  else
    let d_at_cpa := |(a.po_x * ury - a.po_y * urx) / ur|
    let t_2_cpa := -(a.po_x * urx + a.po_y * ury) / ur ^ 2
    let x_at_cpa := gunn.p.1 + gunn.ux * t_2_cpa
    let y_at_cpa := gunn.p.2 + gunn.uy * t_2_cpa
    let d_2_cpa := Real.sqrt (x_at_cpa ^ 2 + y_at_cpa ^ 2)
    if d_2_cpa > P.max_d_2_cpa then none
    else
      some { d_at_cpa := d_at_cpa, d_2_cpa := d_2_cpa, t_2_cpa := t_2_cpa,
             x_at_cpa := x_at_cpa, y_at_cpa := y_at_cpa,
             o_x_at_cpa := a.po_x + t_2_cpa * a.uo_x,
             o_y_at_cpa := a.po_y + t_2_cpa * a.uo_y }

/-- The safety-radius intersection record (`colav_types.Safety_Params`). -/
structure SafetyRec where
  t_2_r : ℝ
  t_x_at_r : ℝ
  t_y_at_r : ℝ
  x_at_r : ℝ
  y_at_r : ℝ
  d_2_r : ℝ

/-- `arpa._get_safety_params(gunn_data, ais_data_item)`: the rationalized
closed forms of the two roots of the quadratic `|p(t) − po(t)| = R`; the
code keeps the smaller of the two. -/
noncomputable def get_safety_params (P : ArpaParams) (gunn : RvgNed)
    (a : AisNed) : SafetyRec :=
  let urx := a.uo_x - gunn.ux
  let ury := a.uo_y - gunn.uy
  let ur := Real.sqrt (urx ^ 2 + ury ^ 2)
  let R := P.safety_radius_m
  let t_2_r :=
    if npIsClose ur 0 then 0
    else
      let disc := Real.sqrt (R ^ 2 * a.uo_x ^ 2
        - 2 * R ^ 2 * a.uo_x * gunn.ux + R ^ 2 * a.uo_y ^ 2
        - 2 * R ^ 2 * a.uo_y * gunn.uy + R ^ 2 * gunn.ux ^ 2
        + R ^ 2 * gunn.uy ^ 2 - a.uo_x ^ 2 * a.po_y ^ 2
        + 2 * a.uo_x * a.uo_y * a.po_x * a.po_y
        + 2 * a.uo_x * gunn.ux * a.po_y ^ 2
        - 2 * a.uo_x * gunn.uy * a.po_x * a.po_y
        - a.uo_y ^ 2 * a.po_x ^ 2
        - 2 * a.uo_y * gunn.ux * a.po_x * a.po_y
        + 2 * a.uo_y * gunn.uy * a.po_x ^ 2 - gunn.ux ^ 2 * a.po_y ^ 2
        + 2 * gunn.ux * gunn.uy * a.po_x * a.po_y
        - gunn.uy ^ 2 * a.po_x ^ 2)
      let t_2_r_a := (-R ^ 2 + a.po_x ^ 2 + a.po_y ^ 2) /
        (disc - a.uo_x * a.po_x + gunn.ux * a.po_x
          - a.po_y * (a.uo_y - gunn.uy))
      let t_2_r_b := -(-R ^ 2 + a.po_x ^ 2 + a.po_y ^ 2) /
        (disc + a.uo_x * a.po_x - gunn.ux * a.po_x
          + a.po_y * (a.uo_y - gunn.uy))
      if t_2_r_a > t_2_r_b then t_2_r_b else t_2_r_a
  { t_2_r := t_2_r,
    t_x_at_r := a.po_x + t_2_r * a.uo_x,
    t_y_at_r := a.po_y + t_2_r * a.uo_y,
    x_at_r := gunn.p.1 + t_2_r * gunn.ux,
    y_at_r := gunn.p.2 + t_2_r * gunn.uy,
    d_2_r := Real.sqrt ((t_2_r * gunn.ux) ^ 2 + (t_2_r * gunn.uy) ^ 2) }

/-- The per-target body of `arpa._process_data`'s loop: compute the CPA,
apply the two emission gates (`t_2_cpa ≥ 0` and
`d_at_cpa ≤ safety_radius · safety_radius_tol`), and populate the
cpa/safety fields of the record; `none` when the target is not emitted. -/
noncomputable def process_ais_item (P : ArpaParams) (gunn : RvgNed)
    (item : AisNed) : Option AisNed :=
  match get_cpa P gunn item with
  | none => none
  | some c =>
    if c.t_2_cpa ≥ 0 ∧
        c.d_at_cpa ≤ P.safety_radius_m * P.safety_radius_tol then
      let item' := { item with
                     cpa := true, d_at_cpa := c.d_at_cpa,
                     d_2_cpa := c.d_2_cpa, t_2_cpa := c.t_2_cpa,
                     x_at_cpa := c.x_at_cpa, y_at_cpa := c.y_at_cpa,
                     o_x_at_cpa := c.o_x_at_cpa, o_y_at_cpa := c.o_y_at_cpa }
      if c.d_at_cpa < P.safety_radius_m then
        let sp := get_safety_params P gunn item'
        some { item' with
               safety_params := true, t_2_r := sp.t_2_r,
               t_x_at_r := sp.t_x_at_r, t_y_at_r := sp.t_y_at_r,
               x_at_r := sp.x_at_r, y_at_r := sp.y_at_r, d_2_r := sp.d_2_r }
      else some item'
    else none

/-- `arpa._process_data` (= `arpa.get_ARPA_parameters`): convert the
own-ship record, then for each AIS message (skipping the own MMSI) convert
it to the local frame and append it to the output when the gates pass. -/
noncomputable def process_data (g : Geodetic2Enu) (P : ArpaParams)
    (gunn_msg : Option GunnerusMsg) (ais : List AisMessage) :
    Option RvgNed × List AisNed :=
  match get_gunnerus_data gunn_msg with
  | none => (none, [])
  | some gunn =>
    (some gunn,
      ais.foldl (fun acc msg =>
        if msg.mmsi = P.gunnerus_mmsi then acc
        else
          match process_ais_item P gunn (get_ais_data g msg gunn) with
          | none => acc
          | some item => acc ++ [item]) [])

/-- The invariant carried by every record `_process_data` emits: the `cpa`
flag and the three gates, and, when the safety flag is set, the
strict-radius bound together with nonnegativity of `t_2_r` whenever the
own-ship's current squared distance to the target exceeds the squared
safety radius. -/
def arpaGates (P : ArpaParams) (x : AisNed) : Prop :=
  x.cpa = true ∧ 0 ≤ x.t_2_cpa ∧
    x.d_at_cpa ≤ P.safety_radius_m * P.safety_radius_tol ∧
    x.d_2_cpa ≤ P.max_d_2_cpa ∧
    (x.safety_params = true →
      x.d_at_cpa < P.safety_radius_m ∧
        (P.safety_radius_m ^ 2 < x.po_x ^ 2 + x.po_y ^ 2 → 0 ≤ x.t_2_r))

/-! ## Encounter classifier: `colav/encounter_classifier.py`, and the
per-MMSI classifier map of `colav_manager._update_encounter_classifiers`. -/

/-- `math.atan2 y x`, via the complex argument (both have range `(−π, π]`
and send the origin to 0). -/
noncomputable def atan2 (y x : ℝ) : ℝ := Complex.arg ⟨x, y⟩

/-- Python's float `%` (the result has the sign of the divisor). -/
noncomputable def fmod (a m : ℝ) : ℝ := a - m * ⌊a / m⌋

/-- The constructor parameters of `encounter_classifier`. -/
structure ClfParams where
  theta1 : ℝ
  theta2 : ℝ
  dsm : DsmParams ℝ

/-- `encounter_classifier.is_angle_in_range`: normalize the angle and both
bounds to `[0, 2π)` and test membership, handling wrap through 0. -/
noncomputable def is_angle_in_range (angle s e : ℝ) : Bool :=
  let na := fmod angle (2 * Real.pi)
  let ns := fmod s (2 * Real.pi)
  let ne := fmod e (2 * Real.pi)
  if ns ≤ ne then decide (ns ≤ na ∧ na ≤ ne)
  else decide (ns ≤ na ∨ na ≤ ne)

/-- `encounter_classifier.get_rbs`: the Relative Bearing Sector (1..4).
The four inclusive ranges cover the circle; the `0` fall-through is
unreachable (in the source it would leave `rbs = 0`, a `KeyError` in the
lookup table). -/
noncomputable def get_rbs (P : ClfParams) (rvg_course e e_ts n n_ts : ℝ) :
    ℕ :=
  let arc1 := P.theta2 - P.theta1
  let arc2 := 2 * (Real.pi - P.theta2)
  let arc3 := P.theta2 - P.theta1
  let phi := atan2 (e_ts - e) (n_ts - n) - rvg_course
  if is_angle_in_range phi P.theta1 (P.theta1 + arc1) then 2
  else if is_angle_in_range phi (P.theta1 + arc1)
      (P.theta1 + arc1 + arc2) then 3
  else if is_angle_in_range phi (P.theta1 + arc1 + arc2)
      (P.theta1 + arc1 + arc2 + arc3) then 4
  else if is_angle_in_range phi (P.theta1 + arc1 + arc2 + arc3)
      P.theta1 then 1
  else 0

/-- `encounter_classifier.get_ss`: the Situation Sector together with the
shifted thresholds `(θ₁₁, θ₂₂)`.  The `0` fall-through is unreachable (the
source would hit an unbound local). -/
noncomputable def get_ss (P : ClfParams) (ts_course e e_ts n n_ts : ℝ) :
    ℕ × ℝ × ℝ :=
  let arc1 := P.theta2 - P.theta1
  let arc2 := 2 * (Real.pi - P.theta2)
  let arc3 := P.theta2 - P.theta1
  let phi_ts := atan2 (e - e_ts) (n - n_ts)
  let theta11 := P.theta1 + phi_ts
  let theta22 := P.theta2 + phi_ts
  let ss :=
    if is_angle_in_range ts_course theta11 (theta11 + arc1) then 2
    else if is_angle_in_range ts_course (theta11 + arc1)
        (theta11 + arc1 + arc2) then 3
    else if is_angle_in_range ts_course (theta11 + arc1 + arc2)
        (theta11 + arc1 + arc2 + arc3) then 4
    else if is_angle_in_range ts_course (theta11 + arc1 + arc2 + arc3)
        theta11 then 1
    else 0
  (ss, theta11, theta22)

/-- `encounter_classifier.identify_range_situation`. -/
noncomputable def identify_range_situation
    (rvg_course ts_course e e_ts n n_ts u_rvg u_ts : ℝ) : RangeSituation :=
  let v_os : ℝ × ℝ := (u_rvg * Real.sin rvg_course, u_rvg * Real.cos rvg_course)
  let v_ts : ℝ × ℝ := (u_ts * Real.sin ts_course, u_ts * Real.cos ts_course)
  let prod := (e_ts - e) * (v_ts.1 - v_os.1) + (n_ts - n) * (v_ts.2 - v_os.2)
  if prod ≥ 0 then .INCREASING else .CLOSING_IN

/-- An entry of the 4×4 lookup table `self._encounters`: a single class, a
2-tuple, or the one 3-tuple. -/
inductive EncEntry
  | one (x : Encounters)
  | two (a b : Encounters)
  | three (a b c : Encounters)
  deriving DecidableEq, Repr

/-- The 4×4 lookup table `self._encounters` (rbs, then ss).  Indices
outside 1..4 are unreachable (the source dict would raise `KeyError`). -/
def encTable (rbs ss : ℕ) : EncEntry :=
  match rbs, ss with
  | 1, 1 => .one .HEADON
  | 1, 2 => .one .GIVEWAY
  | 1, 3 => .three .SAFE .OVERTAKING_PORT .OVERTAKING_STAR
  | 1, 4 => .one .STANDON
  | 2, 1 => .one .GIVEWAY
  | 2, 2 => .one .GIVEWAY
  | 2, 3 => .two .SAFE .OVERTAKING_STAR
  | 2, 4 => .one .SAFE
  | 3, 1 => .two .SAFE .STANDON
  | 3, 2 => .two .SAFE .STANDON
  | 3, 3 => .one .SAFE
  | 3, 4 => .two .SAFE .STANDON
  | 4, 1 => .one .STANDON
  | 4, 2 => .one .SAFE
  | 4, 3 => .two .SAFE .OVERTAKING_PORT
  | 4, 4 => .one .STANDON
  | _, _ => .one .SAFE

/-- `encounter_classifier.classify_encounter`: table lookup, with 2-tuples
resolved by the range situation and the 3-tuple by halving sector 3 of the
target's course.  The final fall-through is unreachable (the source would
return the tuple object itself). -/
noncomputable def classify_encounter (P : ClfParams)
    (rvg_course ts_course e e_ts n n_ts v_rvg v_ts : ℝ) : Encounters :=
  let rbs := get_rbs P rvg_course e e_ts n n_ts
  let s := get_ss P ts_course e e_ts n n_ts
  let arc2 := 2 * (Real.pi - P.theta2)
  let rs := identify_range_situation rvg_course ts_course e e_ts n n_ts
    v_rvg v_ts
  match encTable rbs s.1 with
  | .one x => x
  | .two a b => if rs = .INCREASING then a else b
  | .three a b c =>
    if rs = .INCREASING then a
    else if is_angle_in_range ts_course s.2.2 (s.2.2 + arc2 / 2) then b
    else if is_angle_in_range ts_course (s.2.2 + arc2 / 2)
        (s.2.2 + arc2) then c
    else a

/-- `encounter_classifier.get_encounter_type`: classify, then drive the
per-target FSM and return its new state. -/
noncomputable def get_encounter_type (P : ClfParams) (state : Encounters)
    (rvg_course ts_course e e_ts n n_ts v_rvg v_ts d_at_cpa t_2_cpa : ℝ) :
    Encounters :=
  dsmUpdate P.dsm state
    (classify_encounter P rvg_course ts_course e e_ts n n_ts v_rvg v_ts)
    d_at_cpa t_2_cpa

/-- The manager's per-MMSI classifier map: MMSI ↦ current FSM state (the
only state an `encounter_classifier` instance carries across ticks; new
instances start in `SAFE`). -/
abbrev ClassifierMap := List (String × Encounters)

/-- The classifier parameters built in `colav_manager.__init__`
(default `θ₁ = deg2rad 20`, `θ₂ = deg2rad 120`, thresholds scaled from
`safety_radius_m = 25`). -/
noncomputable def colavClfParams : ClfParams :=
  { theta1 := radians 20
    theta2 := radians 120
    dsm := { d_enter_up_cpa := 25 * (3/2), t_enter_up_cpa := 600,
             t_enter_low_cpa := 0, d_exit_low_cpa := 25 * 2,
             t_exit_low_cpa := 0, t_exit_up_cpa := 650 } }

/-- One iteration of `_update_encounter_classifiers`' first loop: create
the classifier if absent (initial state `SAFE`), then drive it with either
the safety-radius intersection point (when `safety_params` is set, with
`d_at_cpa := safety_radius_m`) or the CPA point. -/
noncomputable def classifierStep (P : ClfParams) (safety_radius_m : ℝ)
    (rvg : RvgNed) (m : ClassifierMap) (a : AisNed) : ClassifierMap :=
  let m' := if (m.lookup a.mmsi).isSome then m
            else m ++ [(a.mmsi, Encounters.SAFE)]
  m'.map (fun kv =>
    if kv.1 = a.mmsi then
      (kv.1,
        if a.safety_params then
          get_encounter_type P kv.2 (radians rvg.course) (radians a.course)
            a.x_at_r a.t_x_at_r a.y_at_r a.t_y_at_r rvg.u a.uo
            safety_radius_m a.t_2_r
        else
          get_encounter_type P kv.2 (radians rvg.course) (radians a.course)
            a.x_at_cpa a.o_x_at_cpa a.y_at_cpa a.o_y_at_cpa rvg.u a.uo
            a.d_at_cpa a.t_2_cpa)
    else kv)

/-- The deletion loop closing `_update_encounter_classifiers`:
`for key in ais_keys: if key not in classifiers: del classifiers[key]`.
When the branch is taken the `del` raises `KeyError` (the key is, by the
test just made, absent), modelled as an error; the branch is in fact dead,
since every key of `ais_keys` was inserted by the first loop — so stale
classifiers for vanished MMSIs are never removed. -/
def classifierGc (ais_keys : List String) (m : ClassifierMap) :
    Except Unit ClassifierMap :=
  ais_keys.foldlM (fun m k =>
    if (m.lookup k).isSome then pure m else Except.error ()) m

/-- `colav_manager._update_encounter_classifiers(rvg_data, ais_data)`. -/
noncomputable def update_encounter_classifiers (P : ClfParams)
    (safety_radius_m : ℝ) (rvg : RvgNed) (ais : List AisNed)
    (m : ClassifierMap) : Except Unit ClassifierMap :=
  classifierGc (ais.map AisNed.mmsi)
    (ais.foldl (classifierStep P safety_radius_m rvg) m)

/-! ## CBF predictors: `colav/CBF.py` (base, circular domain) and
`colav/CBF_Poly.py` (polygonal domains).

The 4-DOF integrator `int_RVGMan4` is an external library (spec §6.5),
modelled as the uninterpreted parameter `extModel`. -/

/-- The rotation matrix `self._S = [[0, −1], [1, 0]]` applied to a vector. -/
noncomputable def Svec (v : ℝ × ℝ) : ℝ × ℝ := (-v.2, v.1)

/-- `cbf._get_nominal_control(z, tq)`:
`z̃ = [tq | S·tq]ᵀ·z`, `rd = (−k1·z̃₁)/√(1 − λ²·z̃₀²)`. -/
noncomputable def get_nominal_control (k1 lam : ℝ) (z tq : ℝ × ℝ) : ℝ :=
  let zt0 := tq.1 * z.1 + tq.2 * z.2
  let zt1 := (Svec tq).1 * z.1 + (Svec tq).2 * z.2
  (-k1 * zt1) / Real.sqrt (1 - lam ^ 2 * zt0 ^ 2)

/-- The numeric parameters of `cbf.__init__` with their defaults
(`dt = 0.2`, `γ₂ = 40`, `γ₁ = 0.2`, `ε = 1e-6`, `max_rd = 0.18`). -/
structure CbfParams where
  safety_radius_m : ℝ
  k1 : ℝ := 1
  lam : ℝ := 1 / 2
  dt : ℝ := 1 / 5
  gamma_2 : ℝ := 40
  gamma_1 : ℝ := 1 / 5
  max_rd : ℝ := 9 / 50
  epsilon : ℝ := 1e-6

/-- A target as fed to the base CBF rollout (columns of `po`, `zo`, `uo`). -/
structure CbfTarget where
  po : ℝ × ℝ
  zo : ℝ × ℝ
  uo : ℝ

/-- `np.argmin`: index of the first minimum (0 on an empty array, where
the source would raise). -/
noncomputable def listMin : List ℝ → ℝ
  | [] => 0
  | [x] => x
  | x :: y :: xs => min x (listMin (y :: xs))

/-- First index attaining the minimum. -/
noncomputable def argminIdx : List ℝ → ℕ
  | [] => 0
  | [_] => 0
  | x :: y :: xs => if x ≤ listMin (y :: xs) then 0 else argminIdx (y :: xs) + 1

/-- One step of the base `cbf._process_data` rollout: the heading-rate
command (nominal or minimally-intervened, then clamped to
`[−max_rd, max_rd]`), the updated maneuver-onset record, and the
Euler-integrated `(p, z)`. -/
noncomputable def cbf_step (P : CbfParams) (u : ℝ) (tq : ℝ × ℝ)
    (targets : List CbfTarget) (t : ℕ) (p z : ℝ × ℝ)
    (maneuver : Option ℝ) : ℝ × (ℝ × ℝ) × (ℝ × ℝ) × Option ℝ :=
  let rd_n := get_nominal_control P.k1 P.lam z tq
  let po_t := targets.map (fun tg =>
    (tg.po.1 + t * P.dt * (tg.uo * tg.zo.1),
     tg.po.2 + t * P.dt * (tg.uo * tg.zo.2)))
  let pe := po_t.map (fun q => (p.1 - q.1, p.2 - q.2))
  let pe_norm := pe.map (fun v => Real.sqrt (v.1 ^ 2 + v.2 ^ 2))
  let closest := argminIdx pe_norm
  let ei := pe.getD closest (0, 0)
  let norm_ei := pe_norm.getD closest 0
  let zi := (targets.getD closest ⟨(0, 0), (0, 0), 0⟩).zo
  let ui := (targets.getD closest ⟨(0, 0), (0, 0), 0⟩).uo
  let rvx := u * z.1 - ui * zi.1
  let rvy := u * z.2 - ui * zi.2
  let B1 := P.safety_radius_m - norm_ei
  let LfB1 := -(ei.1 * rvx + ei.2 * rvy) / norm_ei
  let B2 := LfB1 + (1 / P.gamma_1) * B1
  let LfB2 := (ei.1 * rvx + ei.2 * rvy) ^ 2 / norm_ei ^ 3
    - Real.sqrt (rvx ^ 2 + rvy ^ 2) ^ 2 / norm_ei + (1 / P.gamma_1) * LfB1
  let LgB2 := -u * (ei.1 * (Svec z).1 + ei.2 * (Svec z).2) / norm_ei
  let B2_dot := LfB2 + LgB2 * rd_n
  let intervene := ¬ (B2_dot ≤ -(1 / P.gamma_2) * B2)
  let rd0 :=
    if B2_dot ≤ -(1 / P.gamma_2) * B2 then rd_n
    else rd_n - (LfB2 + LgB2 * rd_n + (1 / P.gamma_2) * B2) * LgB2 /
      (LgB2 * LgB2 + P.epsilon)
  let maneuver' :=
    if intervene then (if maneuver.isNone then some (t * P.dt) else maneuver)
    else maneuver
  let rd :=
    if rd0 > P.max_rd then P.max_rd
    else if rd0 < -P.max_rd then -P.max_rd
    else rd0
  let p' := (p.1 + u * z.1 * P.dt, p.2 + u * z.2 * P.dt)
  let zr := (z.1 + (Svec z).1 * rd * P.dt, z.2 + (Svec z).2 * rd * P.dt)
  let nz := Real.sqrt (zr.1 ^ 2 + zr.2 ^ 2)
  (rd, p', (zr.1 / nz, zr.2 / nz), maneuver')

/-- The `(p, z, maneuver)` state of the base rollout before step `t`. -/
noncomputable def cbf_state_at (P : CbfParams) (u : ℝ) (tq : ℝ × ℝ)
    (targets : List CbfTarget) (p0 z0 : ℝ × ℝ) :
    ℕ → (ℝ × ℝ) × (ℝ × ℝ) × Option ℝ
  | 0 => (p0, z0, none)
  | t + 1 =>
    let st := cbf_state_at P u tq targets p0 z0 t
    let r := cbf_step P u tq targets t st.1 st.2.1 st.2.2
    (r.2.1, r.2.2.1, r.2.2.2)

/-- The clamped heading-rate command applied at step `t` of the base
rollout. -/
noncomputable def cbf_rd_at (P : CbfParams) (u : ℝ) (tq : ℝ × ℝ)
    (targets : List CbfTarget) (p0 z0 : ℝ × ℝ) (t : ℕ) : ℝ :=
  let st := cbf_state_at P u tq targets p0 z0 t
  (cbf_step P u tq targets t st.1 st.2.1 st.2.2).1

/-- A polygonal ship domain with real-valued arrays (the values of
`cbf_domains.json` as used by `cbf_poly`). -/
structure DomainR where
  d : List ℝ
  z1 : List ℝ
  z2 : List ℝ

/-- A target as fed to the polygonal rollout (`_sort_data` row: position,
heading, speed, encounter class, vessel length). -/
structure PolyTarget where
  po : ℝ × ℝ
  zo : ℝ × ℝ
  uo : ℝ
  encounter : Encounters
  length : ℝ

/-- `cbf_poly._apply_domain(domain, vessel_length, zo_init)`: rotate each
domain direction by the target's course and scale each distance by the
vessel length. -/
noncomputable def apply_domain (dom : DomainR) (vessel_length : ℝ)
    (zo_init : ℝ × ℝ) : List (ℝ × ℝ) × List ℝ :=
  let dq := dom.d.map (· * vessel_length)
  let course_o := atan2 zo_init.1 zo_init.2
  let tq_d := (dom.z1.zip dom.z2).map (fun zz =>
    let angle := atan2 zz.1 zz.2
    let rot := angle + course_o
    (Real.sin rot, Real.cos rot))
  (tq_d, dq)

/-- `cbf_poly._select_active_constraint`: hysteresis-filtered active
constraint.  `none` models the source crash when the intersection `H` is
empty and no previous index exists (numpy indexing with `None`). -/
noncomputable def select_active_constraint (gamma1 hyst_w : ℝ)
    (tq_d : List (ℝ × ℝ)) (dq : List ℝ) (pe : ℝ × ℝ) (u ui : ℝ)
    (z zi : ℝ × ℝ) (B1_p B2_p : Option ℝ) (h_p : Option ℕ) (rd_n : ℝ) :
    Option (ℝ × ℝ × ℝ × ℝ × ℝ × ℝ × ℕ) :=
  let n := dq.length
  let B1 := (List.range n).map (fun k =>
    dq.getD k 0 -
      ((tq_d.getD k (0, 0)).1 * pe.1 + (tq_d.getD k (0, 0)).2 * pe.2))
  let B1_dot := (List.range n).map (fun k =>
    -((tq_d.getD k (0, 0)).1 * (u * z.1 - ui * zi.1) +
      (tq_d.getD k (0, 0)).2 * (u * z.2 - ui * zi.2)))
  let B2 := (List.range n).map (fun k =>
    B1_dot.getD k 0 + (1 / gamma1) * B1.getD k 0)
  let initializing := B1_p.isNone ∨ B2_p.isNone
  let B1p := if B1_p.isNone ∨ B2_p.isNone then B1.getD 0 0 else B1_p.getD 0
  let B2p := if B1_p.isNone ∨ B2_p.isNone then B2.getD 0 0 else B2_p.getD 0
  let max_B1 := if B1p > 0 then B1p else 0
  let H := (List.range n).filter (fun k =>
    decide (B1.getD k 0 ≤ max_B1) &&
      (if initializing then decide (B2.getD k 0 ≤ B2p)
       else decide (B2.getD k 0 ≤ B2p - hyst_w)))
  let h : Option ℕ :=
    match H with
    | [] => h_p
    | k :: _ => some k
  match h with
  | none => none
  | some k =>
    let LfB2 := (1 / gamma1) * B1_dot.getD k 0
    let LgB2 := -((tq_d.getD k (0, 0)).1 * (u * (Svec z).1) +
      (tq_d.getD k (0, 0)).2 * (u * (Svec z).2))
    let B2_dot := LgB2 * rd_n + LfB2
    some (B1.getD k 0, B1_dot.getD k 0, B2.getD k 0, B2_dot, LfB2, LgB2, k)

/-- `cbf_4dof._get_azi(r, r_safe, p_azi)`: PI-like azimuth command with
per-step rate limiting (`np.sign` semantics) and saturation. -/
noncomputable def get_azi (k2 k3 max_azi max_azi_d : ℝ)
    (r r_safe p_azi : ℝ) : ℝ :=
  let ad := -k2 * (r - r_safe) + k3 * r_safe
  let ad :=
    if |p_azi - ad| > max_azi_d then
      p_azi + (if ad > 0 then 1 else if ad < 0 then -1 else 0) * max_azi_d
    else ad
  if ad > max_azi then max_azi
  else if ad < -max_azi then -max_azi
  else ad

/-- The mutable state threaded through `cbf_poly._process_data`'s loop. -/
structure PolyState where
  p : ℝ × ℝ
  z : ℝ × ℝ
  x : List ℝ
  azi : ℝ
  revs : ℝ
  B1 : Option ℝ
  B2 : Option ℝ
  h : Option ℕ
  encounter : Option Encounters
  maneuver : Option ℝ

/-- The initial state of `cbf_poly._process_data` (its preamble):
`eta = [0,0,0,yaw]`, `nu = [u,0,0,0]`, `infer_azi_revs` gives `(0, 100)`. -/
noncomputable def poly_init (u : ℝ) (p z : ℝ × ℝ) : PolyState :=
  let yaw := atan2 z.1 z.2
  { p := p, z := z, x := [0, 0, 0, yaw, u, 0, 0, 0, 0, 100],
    azi := 0, revs := 100, B1 := none, B2 := none, h := none,
    encounter := none, maneuver := none }

/-- One step of `cbf_poly._process_data`: the heading-rate command `rd`
(note: unlike the base class, `rd` is NOT clamped to `[−max_rd, max_rd]`;
it goes straight into `_get_azi`), the azimuth command, and the next state
through the external integrator `extModel`. -/
noncomputable def poly_step (P : CbfParams) (hyst_w k2 k3 max_azi max_azi_d : ℝ)
    (extModel : List ℝ → ℝ × ℝ → List ℝ)
    (domains : Encounters → DomainR) (targets : List PolyTarget)
    (tq : ℝ × ℝ) (u : ℝ) (t : ℕ) (st : PolyState) :
    Option (ℝ × PolyState) :=
  let rd_n := get_nominal_control P.k1 P.lam st.z tq
  let po_t := targets.map (fun tg =>
    (tg.po.1 + t * P.dt * (tg.uo * tg.zo.1),
     tg.po.2 + t * P.dt * (tg.uo * tg.zo.2)))
  let pe := po_t.map (fun q => (st.p.1 - q.1, st.p.2 - q.2))
  let pe_norm := pe.map (fun v => Real.sqrt (v.1 ^ 2 + v.2 ^ 2))
  let closest := argminIdx pe_norm
  let tg := targets.getD closest ⟨(0, 0), (0, 0), 0, .SAFE, 0⟩
  let B1p := if some tg.encounter ≠ st.encounter then none else st.B1
  let B2p := if some tg.encounter ≠ st.encounter then none else st.B2
  let dom := apply_domain (domains tg.encounter) tg.length tg.zo
  let ei := pe.getD closest (0, 0)
  match select_active_constraint P.gamma_1 hyst_w dom.1 dom.2 ei u tg.uo
    st.z tg.zo B1p B2p st.h rd_n with
  | none => none
  | some r =>
    let B1h := r.1
    let B2h := r.2.2.1
    let B2_dot := r.2.2.2.1
    let LfB2 := r.2.2.2.2.1
    let LgB2 := r.2.2.2.2.2.1
    let hidx := r.2.2.2.2.2.2
    let rd :=
      if B2_dot ≤ -(1 / P.gamma_2) * B2h then rd_n
      else rd_n - (LfB2 + LgB2 * rd_n + (1 / P.gamma_2) * B2h) * LgB2 /
        (LgB2 * LgB2 + P.epsilon)
    let maneuver :=
      if B2_dot ≤ -(1 / P.gamma_2) * B2h then st.maneuver
      else (if st.maneuver.isNone then some (t * P.dt) else st.maneuver)
    let azi := get_azi k2 k3 max_azi max_azi_d (st.x.getD 8 0) rd st.azi
    let x := extModel st.x (azi, st.revs)
    let zr := (Real.sin (x.getD 3 0), Real.cos (x.getD 3 0))
    let nz := Real.sqrt (zr.1 ^ 2 + zr.2 ^ 2)
    some (rd,
      { p := (x.getD 1 0, x.getD 0 0), z := (zr.1 / nz, zr.2 / nz), x := x,
        azi := azi, revs := st.revs, B1 := some B1h, B2 := some B2h,
        h := some hidx, encounter := some tg.encounter,
        maneuver := maneuver })

/-- The state of the polygonal rollout before step `t` (`none` once the
source would have crashed). -/
noncomputable def poly_state_at (P : CbfParams)
    (hyst_w k2 k3 max_azi max_azi_d : ℝ)
    (extModel : List ℝ → ℝ × ℝ → List ℝ) (domains : Encounters → DomainR)
    (targets : List PolyTarget) (tq : ℝ × ℝ) (u : ℝ) (p0 z0 : ℝ × ℝ) :
    ℕ → Option PolyState
  | 0 => some (poly_init u p0 z0)
  | t + 1 =>
    (poly_state_at P hyst_w k2 k3 max_azi max_azi_d extModel domains targets
        tq u p0 z0 t).bind
      (fun st => (poly_step P hyst_w k2 k3 max_azi max_azi_d extModel
        domains targets tq u t st).map Prod.snd)

/-- The heading-rate command applied to the model at step `t` of the
polygonal rollout. -/
noncomputable def poly_rd_at (P : CbfParams)
    (hyst_w k2 k3 max_azi max_azi_d : ℝ)
    (extModel : List ℝ → ℝ × ℝ → List ℝ) (domains : Encounters → DomainR)
    (targets : List PolyTarget) (tq : ℝ × ℝ) (u : ℝ) (p0 z0 : ℝ × ℝ)
    (t : ℕ) : Option ℝ :=
  (poly_state_at P hyst_w k2 k3 max_azi max_azi_d extModel domains targets
      tq u p0 z0 t).bind
    (fun st => (poly_step P hyst_w k2 k3 max_azi max_azi_d extModel domains
      targets tq u t st).map Prod.fst)

/-- CBF parameters for the C5 scenario (`safety_radius_m = 25`, all other
values the source defaults). -/
noncomputable def c5P : CbfParams := { safety_radius_m := 25 }

/-- Domain table for the C5 scenario: one constraint, direction (0, 1),
distance multiplier 2, for every class. -/
noncomputable def c5domains : Encounters → DomainR :=
  fun _ => ⟨[2], [0], [1]⟩

/-- The single C5 target: 100 m south, heading north, stationary,
vessel length 25. -/
noncomputable def c5targets : List PolyTarget :=
  [⟨(0, -100), (0, 1), 0, .HEADON, 25⟩]

/-- A stub external integrator (the identity on the state). -/
noncomputable def c5model : List ℝ → ℝ × ℝ → List ℝ := fun x _ => x

/-- AIS record with MMSI "A" for the C1 scenario. -/
noncomputable def c1a : AisNed :=
  { po_x := 0, po_y := 0, uo := 0, zo := (0, 1), uo_x := 0, uo_y := 0,
    course := 0, mmsi := "A" }

/-- AIS record with MMSI "B" for the C1 scenario. -/
noncomputable def c1b : AisNed := { c1a with mmsi := "B" }

/-! Concrete ARPA scenarios.  Own-ship: stationary, course 0°.  Target:
course 180°, speed chosen so that `kn_to_mps` gives exactly 1 m/s.  In the
first scenario the external ENU transform places the target at the origin
(inside the 25 m safety radius); in the second it places it 100 m north. -/

/-- External ENU transform stub: target at the ENU origin. -/
noncomputable def c3env : Geodetic2Enu := fun _ _ _ _ _ _ => (0, 0, 0)

/-- External ENU transform stub: east 0, north equal to the raw latitude. -/
noncomputable def c4env : Geodetic2Enu := fun lat _ _ _ _ _ => (0, lat, 0)

/-- ARPA parameters with the manager's default `safety_radius_m = 25`. -/
noncomputable def c3P : ArpaParams := { safety_radius_m := 25 }

/-- Own-ship GPRMC record: at (0, 0), stationary, course 0°. -/
noncomputable def c3gm : GunnerusMsg :=
  { lat := 0, lat_dir := "N", lon := 0, lon_dir := "E",
    spd_over_grnd := 0, true_course := 0 }

/-- The own-ship local-frame record produced from `c3gm`. -/
noncomputable def c3gunn : RvgNed :=
  { p := (0, 0), u := 0, ux := 0, uy := 0, z := (0, 1), tq := (0, 1),
    lon := 0, lat := 0, course := 0 }

/-- Target AIS report at raw (0, 0), course 180°, speed 100000/51444 kn
(exactly 1 m/s after conversion). -/
noncomputable def c3am : AisMessage :=
  { mmsi := "T", lon := 0, lat := 0, course := some 180,
    speed := some (100000 / 51444) }

/-- The local-frame record produced from `c3am` under `c3env`. -/
noncomputable def c3a : AisNed :=
  { po_x := 0, po_y := 0, uo := 1, zo := (0, -1), uo_x := 0, uo_y := -1,
    course := 180, mmsi := "T" }

/-- The record `_process_data` emits for the inside-radius scenario:
`safety_params` is set and `t_2_r = -25 < 0`. -/
noncomputable def c3item : AisNed :=
  { c3a with cpa := true, safety_params := true, t_2_r := -25,
             t_x_at_r := 0, t_y_at_r := 25, x_at_r := 0, y_at_r := 0,
             d_2_r := 0 }

/-- Target AIS report at raw latitude 100 (100 m north under `c4env`),
course 180°, 1 m/s. -/
noncomputable def c4am : AisMessage :=
  { mmsi := "T", lon := 0, lat := 100, course := some 180,
    speed := some (100000 / 51444) }

/-- The local-frame record produced from `c4am` under `c4env`. -/
noncomputable def c4a : AisNed :=
  { po_x := 0, po_y := 100, uo := 1, zo := (0, -1), uo_x := 0, uo_y := -1,
    course := 180, mmsi := "T" }

/-- The record `_process_data` emits for the outside-radius scenario. -/
noncomputable def c4item : AisNed :=
  { c4a with cpa := true, t_2_cpa := 100, safety_params := true,
             t_2_r := 75, t_x_at_r := 0, t_y_at_r := 25, x_at_r := 0,
             y_at_r := 0, d_2_r := 0 }

/-- Concrete server state for the C10 witness: fresh server, no own-ship
fix yet. -/
noncomputable def c10State : ServerState := {}

/-- Concrete AIS record for the C10 witness. -/
noncomputable def c10Msg : SimMsg :=
  { message_id := "!AI_123456789", lat := some 63, lon := some 10,
    course := some 90, speed := some 5 }

/-! ## Theorems -/

/-- Evaluate `Real.sqrt` at a perfect square. -/
theorem sqrt_eval (a b : ℝ) (hb : 0 ≤ b) (h : b ^ 2 = a) : Real.sqrt a = b := by
  subst h
  exact Real.sqrt_sq hb

/-- If numpy's zero test on `√s` fails, then `s` is strictly positive. -/
theorem pos_of_not_isClose (s : ℝ) (hs : 0 ≤ s)
    (h : ¬ npIsClose (Real.sqrt s) 0 = true) : 0 < s := by
  rcases lt_or_eq_of_le hs with hlt | heq
  · exact hlt
  · exfalso
    apply h
    rw [← heq, Real.sqrt_zero]
    simp [npIsClose]
    norm_num

/-- Inversion of `get_cpa`: the facts carried by a returned CPA record. -/
theorem get_cpa_inv (P : ArpaParams) (gunn : RvgNed) (a : AisNed)
    (c : CpaRec) (h : get_cpa P gunn a = some c) :
    ¬ npIsClose (Real.sqrt ((a.uo_x - gunn.ux) ^ 2 + (a.uo_y - gunn.uy) ^ 2))
        0 = true ∧
    c.d_at_cpa = |(a.po_x * (a.uo_y - gunn.uy) - a.po_y * (a.uo_x - gunn.ux)) /
        Real.sqrt ((a.uo_x - gunn.ux) ^ 2 + (a.uo_y - gunn.uy) ^ 2)| ∧
    c.t_2_cpa = -(a.po_x * (a.uo_x - gunn.ux) + a.po_y * (a.uo_y - gunn.uy)) /
        Real.sqrt ((a.uo_x - gunn.ux) ^ 2 + (a.uo_y - gunn.uy) ^ 2) ^ 2 ∧
    c.d_2_cpa ≤ P.max_d_2_cpa := by
  simp only [get_cpa] at h
  split_ifs at h with h1 h2
  · injection h with h
    subst h
    exact ⟨h1, rfl, rfl, le_of_not_lt h2⟩

/-- The smaller root computed by `_get_safety_params` is nonnegative when
the target is closing (`t_2_cpa ≥ 0`), the miss distance is below the
safety radius, and the own-ship currently lies outside the target's safety
radius. -/
theorem get_safety_t2r_nonneg (P : ArpaParams) (gunn : RvgNed) (a : AisNed)
    (hnc : ¬ npIsClose
        (Real.sqrt ((a.uo_x - gunn.ux) ^ 2 + (a.uo_y - gunn.uy) ^ 2)) 0 = true)
    (hb : a.po_x * (a.uo_x - gunn.ux) + a.po_y * (a.uo_y - gunn.uy) ≤ 0)
    (hd : (a.po_x * (a.uo_y - gunn.uy) - a.po_y * (a.uo_x - gunn.ux)) ^ 2
        < P.safety_radius_m ^ 2 * ((a.uo_x - gunn.ux) ^ 2 + (a.uo_y - gunn.uy) ^ 2))
    (hout : P.safety_radius_m ^ 2 < a.po_x ^ 2 + a.po_y ^ 2) :
    0 ≤ (get_safety_params P gunn a).t_2_r := by
  have hs : 0 < (a.uo_x - gunn.ux) ^ 2 + (a.uo_y - gunn.uy) ^ 2 :=
    pos_of_not_isClose _ (by positivity) hnc
  simp only [get_safety_params, hnc, if_false]
  set vx := a.uo_x - gunn.ux with hvx
  set vy := a.uo_y - gunn.uy with hvy
  set px := a.po_x
  set py := a.po_y
  set R := P.safety_radius_m
  have hdisc : R ^ 2 * a.uo_x ^ 2 - 2 * R ^ 2 * a.uo_x * gunn.ux
      + R ^ 2 * a.uo_y ^ 2 - 2 * R ^ 2 * a.uo_y * gunn.uy
      + R ^ 2 * gunn.ux ^ 2 + R ^ 2 * gunn.uy ^ 2 - a.uo_x ^ 2 * py ^ 2
      + 2 * a.uo_x * a.uo_y * px * py + 2 * a.uo_x * gunn.ux * py ^ 2
      - 2 * a.uo_x * gunn.uy * px * py - a.uo_y ^ 2 * px ^ 2
      - 2 * a.uo_y * gunn.ux * px * py + 2 * a.uo_y * gunn.uy * px ^ 2
      - gunn.ux ^ 2 * py ^ 2 + 2 * gunn.ux * gunn.uy * px * py
      - gunn.uy ^ 2 * px ^ 2
      = R ^ 2 * (vx ^ 2 + vy ^ 2) - (px * vy - py * vx) ^ 2 := by
    rw [hvx, hvy]; ring
  rw [hdisc]
  set Δ := R ^ 2 * (vx ^ 2 + vy ^ 2) - (px * vy - py * vx) ^ 2 with hΔ
  have hΔpos : 0 < Δ := by rw [hΔ]; linarith [hd]
  have hsqΔ : 0 < Real.sqrt Δ := Real.sqrt_pos.mpr hΔpos
  set b := px * vx + py * vy with hbdef
  have hkey : b ^ 2 - Δ = (vx ^ 2 + vy ^ 2) * (px ^ 2 + py ^ 2 - R ^ 2) := by
    rw [hbdef, hΔ]; ring
  have hcc : 0 < px ^ 2 + py ^ 2 - R ^ 2 := by linarith [hout]
  have hΔlt : Δ < b ^ 2 := by nlinarith [mul_pos hs hcc]
  have hbneg : b < 0 := by
    rcases lt_or_eq_of_le hb with h | h
    · exact h
    · exfalso; rw [h] at hΔlt; simp at hΔlt; linarith
  have hsqlt : Real.sqrt Δ < -b := by
    rw [Real.sqrt_lt' (by linarith : (0:ℝ) < -b)]
    nlinarith
  have hden1 : Real.sqrt Δ - a.uo_x * px + gunn.ux * px - py * (a.uo_y - gunn.uy)
      = Real.sqrt Δ - b := by rw [hbdef, hvx, hvy]; ring
  have hden2 : Real.sqrt Δ + a.uo_x * px - gunn.ux * px + py * (a.uo_y - gunn.uy)
      = Real.sqrt Δ + b := by rw [hbdef, hvx, hvy]; ring
  rw [hden1, hden2]
  have hta : 0 < (-R ^ 2 + px ^ 2 + py ^ 2) / (Real.sqrt Δ - b) :=
    div_pos (by linarith) (by linarith)
  have htb : 0 < -(-R ^ 2 + px ^ 2 + py ^ 2) / (Real.sqrt Δ + b) := by
    apply div_pos_of_neg_of_neg (by linarith) (by linarith)
  split_ifs <;> linarith

/-- Inversion of `process_ais_item`: every record it emits (from an input
whose safety flag is clear, as `_get_ais_data` produces) satisfies the
gate invariant. -/
theorem process_ais_item_gates (P : ArpaParams) (gunn : RvgNed)
    (item x : AisNed) (hsp : item.safety_params = false)
    (hx : process_ais_item P gunn item = some x) : arpaGates P x := by
  unfold process_ais_item at hx
  cases hc : get_cpa P gunn item with
  | none => rw [hc] at hx; exact absurd hx (by simp)
  | some c =>
    rw [hc] at hx
    dsimp only at hx
    obtain ⟨hnc, hdat, ht2, hd2⟩ := get_cpa_inv P gunn item c hc
    have hs : 0 < (item.uo_x - gunn.ux) ^ 2 + (item.uo_y - gunn.uy) ^ 2 :=
      pos_of_not_isClose _ (by positivity) hnc
    have hur : 0 < Real.sqrt ((item.uo_x - gunn.ux) ^ 2 + (item.uo_y - gunn.uy) ^ 2) :=
      Real.sqrt_pos.mpr hs
    have hursq : Real.sqrt ((item.uo_x - gunn.ux) ^ 2 + (item.uo_y - gunn.uy) ^ 2) ^ 2
        = (item.uo_x - gunn.ux) ^ 2 + (item.uo_y - gunn.uy) ^ 2 :=
      Real.sq_sqrt hs.le
    split_ifs at hx with hgate hrad
    · -- safety branch
      obtain ⟨hge, htol⟩ := hgate
      have hb : item.po_x * (item.uo_x - gunn.ux) + item.po_y * (item.uo_y - gunn.uy) ≤ 0 := by
        rw [ht2, hursq] at hge
        by_contra hpos
        push_neg at hpos
        have : -(item.po_x * (item.uo_x - gunn.ux) + item.po_y * (item.uo_y - gunn.uy))
            / ((item.uo_x - gunn.ux) ^ 2 + (item.uo_y - gunn.uy) ^ 2) < 0 :=
          div_neg_of_neg_of_pos (by linarith) hs
        linarith
      have hd : (item.po_x * (item.uo_y - gunn.uy) - item.po_y * (item.uo_x - gunn.ux)) ^ 2
          < P.safety_radius_m ^ 2 *
            ((item.uo_x - gunn.ux) ^ 2 + (item.uo_y - gunn.uy) ^ 2) := by
        rw [hdat] at hrad
        rw [abs_div, abs_of_nonneg hur.le, div_lt_iff₀ hur] at hrad
        have h1 := mul_self_lt_mul_self (abs_nonneg _) hrad
        rw [abs_mul_abs_self] at h1
        nlinarith [h1, hursq]
      injection hx with hx
      subst hx
      refine ⟨rfl, by simpa using hge, by simpa using htol, by simpa using hd2,
        fun _ => ⟨by simpa using hrad, fun hout => ?_⟩⟩
      exact get_safety_t2r_nonneg P gunn _ (by simpa using hnc)
        (by simpa using hb) (by simpa using hd) (by simpa using hout)
    · -- no-safety branch
      injection hx with hx
      subst hx
      refine ⟨rfl, by simpa using hgate.1, by simpa using hgate.2,
        by simpa using hd2, fun hflag => ?_⟩
      simp only [hsp] at hflag
      exact absurd hflag (by simp)

/-- Membership in `_process_data`'s fold: every element of the output is
either in the accumulator or is emitted by `process_ais_item` for some
input message. -/
theorem process_fold_mem (P : ArpaParams) (gunn : RvgNed) (g : Geodetic2Enu)
    (ais : List AisMessage) (acc : List AisNed) (x : AisNed)
    (hx : x ∈ ais.foldl (fun acc msg =>
        if msg.mmsi = P.gunnerus_mmsi then acc
        else
          match process_ais_item P gunn (get_ais_data g msg gunn) with
          | none => acc
          | some item => acc ++ [item]) acc) :
    x ∈ acc ∨ ∃ msg, process_ais_item P gunn (get_ais_data g msg gunn) = some x := by
  induction ais generalizing acc with
  | nil => exact Or.inl hx
  | cons m l ih =>
    rw [List.foldl_cons] at hx
    rcases ih _ hx with h | h
    · by_cases hm : m.mmsi = P.gunnerus_mmsi
      · rw [if_pos hm] at h
        exact Or.inl h
      · rw [if_neg hm] at h
        cases hp : process_ais_item P gunn (get_ais_data g m gunn) with
        | none => rw [hp] at h; exact Or.inl h
        | some y =>
            rw [hp] at h
            rcases List.mem_append.mp h with h | h
            · exact Or.inl h
            · have hxy := List.mem_singleton.mp h
              subst hxy
              exact Or.inr ⟨m, hp⟩
    · exact Or.inr h

/-- **C4** (confirmed).  Every record in the processed-data list returned by
`get_ARPA_parameters` carries the `cpa` flag and satisfies the three gates:
`t_2_cpa ≥ 0`, `d_at_cpa ≤ safety_radius · safety_radius_tol` and
`d_2_cpa ≤ max_d_2_cpa`. -/
theorem C4_emitted_records_gated (g : Geodetic2Enu) (P : ArpaParams)
    (gm : Option GunnerusMsg) (ais : List AisMessage) (x : AisNed)
    (hx : x ∈ (process_data g P gm ais).2) :
    x.cpa = true ∧ 0 ≤ x.t_2_cpa ∧
      x.d_at_cpa ≤ P.safety_radius_m * P.safety_radius_tol ∧
      x.d_2_cpa ≤ P.max_d_2_cpa := by
  unfold process_data at hx
  cases hg : get_gunnerus_data gm with
  | none => rw [hg] at hx; simp at hx
  | some gunn =>
    rw [hg] at hx
    dsimp only at hx
    rcases process_fold_mem P gunn g ais [] x hx with h | ⟨msg, hp⟩
    · simp at h
    · have hsp : (get_ais_data g msg gunn).safety_params = false := rfl
      have hG := process_ais_item_gates P gunn _ x hsp hp
      exact ⟨hG.1, hG.2.1, hG.2.2.1, hG.2.2.2.1⟩

/-- **C3** (amended).  Every emitted record with the `safety_params` flag
satisfies `d_at_cpa < safety_radius`, and its `t_2_r` — the smaller of the
two quadratic roots — is nonnegative provided the own-ship currently lies
outside the target's safety radius (`po_x² + po_y² > safety_radius²`). -/
theorem C3_safety_params_record (g : Geodetic2Enu) (P : ArpaParams)
    (gm : Option GunnerusMsg) (ais : List AisMessage) (x : AisNed)
    (hx : x ∈ (process_data g P gm ais).2)
    (hs : x.safety_params = true)
    (hout : P.safety_radius_m ^ 2 < x.po_x ^ 2 + x.po_y ^ 2) :
    x.d_at_cpa < P.safety_radius_m ∧ 0 ≤ x.t_2_r := by
  unfold process_data at hx
  cases hg : get_gunnerus_data gm with
  | none => rw [hg] at hx; simp at hx
  | some gunn =>
    rw [hg] at hx
    dsimp only at hx
    rcases process_fold_mem P gunn g ais [] x hx with h | ⟨msg, hp⟩
    · simp at h
    · have hsp : (get_ais_data g msg gunn).safety_params = false := rfl
      have hG := process_ais_item_gates P gunn _ x hsp hp
      obtain ⟨hrad, ht⟩ := hG.2.2.2.2 hs
      exact ⟨hrad, ht hout⟩

/-- `radians 180 = π`. -/
theorem radians_one_eighty : radians 180 = Real.pi := by
  unfold radians
  exact mul_div_cancel_left₀ _ (by norm_num)

/-- Own-ship conversion for the concrete ARPA scenarios. -/
theorem c3_gunn_eval : get_gunnerus_data (some c3gm) = some c3gunn := by
  simp only [get_gunnerus_data, c3gm, c3gunn]
  norm_num [deg_2_dec, mathTrunc, kn_to_mps, mps_in_kn, radians]

/-- Target conversion, inside-radius scenario. -/
theorem c3_ais_eval : get_ais_data c3env c3am c3gunn = c3a := by
  simp only [get_ais_data, coords_to_xyz, c3env, c3am, c3gunn,
    Option.getD_some, radians_one_eighty, Real.sin_pi, Real.cos_pi]
  norm_num [c3a, kn_to_mps, mps_in_kn]

/-- Target conversion, outside-radius scenario. -/
theorem c4_ais_eval : get_ais_data c4env c4am c3gunn = c4a := by
  simp only [get_ais_data, coords_to_xyz, c4env, c4am, c3gunn,
    Option.getD_some, radians_one_eighty, Real.sin_pi, Real.cos_pi]
  norm_num [c4a, kn_to_mps, mps_in_kn]

/-- CPA evaluation when the target sits at the ENU origin. -/
theorem c3_cpa_eval (b : AisNed) (h1 : b.po_x = 0) (h2 : b.po_y = 0)
    (h3 : b.uo_x = 0) (h4 : b.uo_y = -1) :
    get_cpa c3P c3gunn b = some ⟨0, 0, 0, 0, 0, 0, 0⟩ := by
  norm_num [get_cpa, npIsClose, h1, h2, h3, h4, c3gunn, c3P]

/-- CPA evaluation when the target sits 100 m north. -/
theorem c4_cpa_eval (b : AisNed) (h1 : b.po_x = 0) (h2 : b.po_y = 100)
    (h3 : b.uo_x = 0) (h4 : b.uo_y = -1) :
    get_cpa c3P c3gunn b = some ⟨0, 0, 100, 0, 0, 0, 0⟩ := by
  norm_num [get_cpa, npIsClose, h1, h2, h3, h4, c3gunn, c3P]

/-- Safety-parameter evaluation when the target sits at the ENU origin:
the smaller root is `-25`. -/
theorem c3_safety_eval (b : AisNed) (h1 : b.po_x = 0) (h2 : b.po_y = 0)
    (h3 : b.uo_x = 0) (h4 : b.uo_y = -1) :
    get_safety_params c3P c3gunn b = ⟨-25, 0, 25, 0, 0, 0⟩ := by
  have h625 : Real.sqrt (625 : ℝ) = 25 :=
    sqrt_eval _ _ (by norm_num) (by norm_num)
  norm_num [get_safety_params, npIsClose, h1, h2, h3, h4, c3gunn, c3P, h625]

/-- Safety-parameter evaluation when the target sits 100 m north: the
smaller root is `75`. -/
theorem c4_safety_eval (b : AisNed) (h1 : b.po_x = 0) (h2 : b.po_y = 100)
    (h3 : b.uo_x = 0) (h4 : b.uo_y = -1) :
    get_safety_params c3P c3gunn b = ⟨75, 0, 25, 0, 0, 0⟩ := by
  have h625 : Real.sqrt (625 : ℝ) = 25 :=
    sqrt_eval _ _ (by norm_num) (by norm_num)
  norm_num [get_safety_params, npIsClose, h1, h2, h3, h4, c3gunn, c3P, h625]

/-- Per-target processing, inside-radius scenario. -/
theorem c3_item_eval : process_ais_item c3P c3gunn c3a = some c3item := by
  have hc := c3_cpa_eval c3a rfl rfl rfl rfl
  unfold process_ais_item
  rw [hc]
  dsimp only
  split_ifs with h1 h2
  · rw [c3_safety_eval _ rfl rfl rfl rfl]
    simp [c3a, c3item]
  · exact absurd (by norm_num [c3P] : (0:ℝ) < c3P.safety_radius_m) h2
  · exact absurd ⟨by norm_num, by norm_num [c3P]⟩ h1

/-- Per-target processing, outside-radius scenario. -/
theorem c4_item_eval : process_ais_item c3P c3gunn c4a = some c4item := by
  have hc := c4_cpa_eval c4a rfl rfl rfl rfl
  unfold process_ais_item
  rw [hc]
  dsimp only
  split_ifs with h1 h2
  · rw [c4_safety_eval _ rfl rfl rfl rfl]
    simp [c4a, c4item]
  · exact absurd (by norm_num [c3P] : (0:ℝ) < c3P.safety_radius_m) h2
  · exact absurd ⟨by norm_num, by norm_num [c3P]⟩ h1

/-- Full pipeline, inside-radius scenario. -/
theorem c3_data_eval :
    process_data c3env c3P (some c3gm) [c3am] = (some c3gunn, [c3item]) := by
  unfold process_data
  rw [c3_gunn_eval]
  dsimp only
  rw [List.foldl_cons, List.foldl_nil]
  rw [if_neg (by decide : ¬ c3am.mmsi = c3P.gunnerus_mmsi)]
  rw [c3_ais_eval, c3_item_eval]
  rfl

/-- Full pipeline, outside-radius scenario. -/
theorem c4_data_eval :
    process_data c4env c3P (some c3gm) [c4am] = (some c3gunn, [c4item]) := by
  unfold process_data
  rw [c3_gunn_eval]
  dsimp only
  rw [List.foldl_cons, List.foldl_nil]
  rw [if_neg (by decide : ¬ c4am.mmsi = c3P.gunnerus_mmsi)]
  rw [c4_ais_eval, c4_item_eval]
  rfl

/-- **C3** (counterexample).  In the inside-radius scenario (own-ship
stationary at the origin, target at the origin moving at 1 m/s), the
emitted record has `safety_params = true` but `t_2_r = −25 < 0`: the code
takes the plain smaller root, not the smaller-positive root, so the claimed
`t_2_r ≥ 0` fails. -/
theorem C3_counterexample :
    c3item ∈ (process_data c3env c3P (some c3gm) [c3am]).2 ∧
      c3item.safety_params = true ∧ c3item.t_2_r < 0 := by
  refine ⟨?_, rfl, by norm_num [c3item]⟩
  rw [c3_data_eval]
  exact List.mem_singleton.mpr rfl

/-- Witness for `C4_emitted_records_gated` on the outside-radius scenario. -/
theorem C4_emitted_records_gated_witness :
    c4item ∈ (process_data c4env c3P (some c3gm) [c4am]).2 ∧
      (c4item.cpa = true ∧ 0 ≤ c4item.t_2_cpa ∧
        c4item.d_at_cpa ≤ c3P.safety_radius_m * c3P.safety_radius_tol ∧
        c4item.d_2_cpa ≤ c3P.max_d_2_cpa) :=
  ⟨by rw [c4_data_eval]; exact List.mem_singleton.mpr rfl,
    C4_emitted_records_gated c4env c3P (some c3gm) [c4am] c4item
      (by rw [c4_data_eval]; exact List.mem_singleton.mpr rfl)⟩

/-- Witness for `C3_safety_params_record` on the outside-radius scenario. -/
theorem C3_safety_params_record_witness :
    (c4item ∈ (process_data c4env c3P (some c3gm) [c4am]).2 ∧
        c4item.safety_params = true ∧
        c3P.safety_radius_m ^ 2 < c4item.po_x ^ 2 + c4item.po_y ^ 2) ∧
      (c4item.d_at_cpa < c3P.safety_radius_m ∧ 0 ≤ c4item.t_2_r) :=
  ⟨⟨by rw [c4_data_eval]; exact List.mem_singleton.mpr rfl, rfl,
      by norm_num [c4item, c4a, c3P]⟩,
    C3_safety_params_record c4env c3P (some c3gm) [c4am] c4item
      (by rw [c4_data_eval]; exact List.mem_singleton.mpr rfl) rfl
      (by norm_num [c4item, c4a, c3P])⟩

/-- **C1** (code evaluated at the failing input).  Tick 1 processes MMSI
"A"; tick 2 processes only MMSI "B".  After tick 2 the classifier map still
contains the key "A", although "A" is absent from tick 2's AIS list: the
deletion loop iterates over the *current* AIS keys and tests
`not in classifiers`, which never holds (those keys were just inserted), so
stale entries are never garbage-collected. -/
theorem C1_stale_classifier_survives :
    ∃ m1 m2,
      update_encounter_classifiers colavClfParams 25 c3gunn [c1a] [] =
        .ok m1 ∧
      update_encounter_classifiers colavClfParams 25 c3gunn [c1b] m1 =
        .ok m2 ∧
      m2.map Prod.fst = ["A", "B"] ∧ "A" ∉ [c1b].map AisNed.mmsi := by
  refine ⟨_, _, rfl, rfl, ?_, by decide⟩
  rfl

/-- `atan2 0 1 = 0` (the complex argument of 1). -/
theorem atan2_zero_one : atan2 0 1 = 0 := by
  unfold atan2
  rw [show (⟨1, 0⟩ : ℂ) = 1 from Complex.ext rfl rfl]
  exact Complex.arg_one

/-- Nominal control at `z = (0,1)`, `tq = (1,0)`: the commanded rate is
`−1`. -/
theorem c5_nominal_eval : get_nominal_control 1 (1/2) (0, 1) (1, 0) = -1 := by
  unfold get_nominal_control Svec
  norm_num

/-- Domain application for the C5 scenario. -/
theorem c5_domain_eval :
    apply_domain ⟨[2], [0], [1]⟩ 25 (0, 1) = ([(0, 1)], [50]) := by
  unfold apply_domain
  norm_num [atan2_zero_one]

/-- Active-constraint selection for the C5 scenario (the initialization
path, so the hysteresis width is irrelevant): the single constraint is
selected, `B2_dot = 0`, `B2 = −250`. -/
theorem c5_select_eval (hw : ℝ) :
    select_active_constraint (1/5) hw [(0, 1)] [50] (0, 100) 0 0 (0, 1)
      (0, 1) none none none (-1) = some (-50, 0, -250, 0, 0, 0, 0) := by
  unfold select_active_constraint Svec
  norm_num [show List.range 1 = [0] from rfl, List.getD, List.filter_cons,
    List.filter_nil, List.getElem?_cons_zero, List.getElem?_nil,
    Option.getD_some, Option.getD_none, Option.map_some, Option.map_none]

/-- The heading-rate command of the first polygonal-rollout step in the C5
scenario is the unclamped nominal `−1`. -/
theorem c5_step_rd_eval :
    (poly_step c5P 1e-8 (1/2) (1/2) (30 * Real.pi / 180) (Real.pi / 180)
        c5model c5domains c5targets (1, 0) 0 0
        (poly_init 0 (0, 0) (0, 1))).map Prod.fst = some (-1) := by
  unfold poly_step
  norm_num [c5P, poly_init, c5targets, c5domains, argminIdx,
    c5_nominal_eval, c5_domain_eval, c5_select_eval]

/-- **C5** (counterexample).  In the polygonal-domain rollout with own
heading perpendicular to the desired heading, the command applied at the
first step is the unclamped nominal `rd = −1`, outside
`[−max_rd, max_rd] = [−0.18, 0.18]`: `cbf_poly._process_data` has no `rd`
clamp (unlike the base `cbf._process_data`). -/
theorem C5_counterexample :
    poly_rd_at c5P 1e-8 (1/2) (1/2) (30 * Real.pi / 180) (Real.pi / 180)
        c5model c5domains c5targets (1, 0) 0 (0, 0) (0, 1) 0 = some (-1) ∧
      ¬ (-c5P.max_rd ≤ (-1 : ℝ) ∧ (-1 : ℝ) ≤ c5P.max_rd) := by
  constructor
  · unfold poly_rd_at poly_state_at
    rw [Option.some_bind]
    exact c5_step_rd_eval
  · norm_num [c5P]

/-- **C5** (amended).  In the base (circular-domain) CBF rollout, the
heading-rate command applied at every step lies in `[−max_rd, max_rd]`;
the polygonal rollout applies `rd` unclamped (see the counterexample). -/
theorem C5_base_rd_clamped (P : CbfParams) (u : ℝ) (tq : ℝ × ℝ)
    (targets : List CbfTarget) (p0 z0 : ℝ × ℝ) (t : ℕ)
    (hmax : 0 ≤ P.max_rd) :
    -P.max_rd ≤ cbf_rd_at P u tq targets p0 z0 t ∧
      cbf_rd_at P u tq targets p0 z0 t ≤ P.max_rd := by
  unfold cbf_rd_at cbf_step
  dsimp only
  split_ifs <;> constructor <;> linarith

/-- Witness for `C5_base_rd_clamped` at concrete inputs. -/
theorem C5_base_rd_clamped_witness :
    (0 : ℝ) ≤ c5P.max_rd ∧
      (-c5P.max_rd ≤ cbf_rd_at c5P 0 (1, 0) [] (0, 0) (0, 1) 0 ∧
        cbf_rd_at c5P 0 (1, 0) [] (0, 0) (0, 1) 0 ≤ c5P.max_rd) :=
  ⟨by norm_num [c5P],
    C5_base_rd_clamped c5P 0 (1, 0) [] (0, 0) (0, 1) 0 (by norm_num [c5P])⟩

/-- A single `dsmUpdate` leaves the state unchanged when the distance lies
strictly between the enter and exit thresholds and the time to CPA lies
inside the exit time window. -/
theorem dsmUpdate_fixed {α : Type} [LinearOrderedField α] (P : DsmParams α)
    (s enc : Encounters) (d t : α)
    (h1 : P.d_enter_up_cpa < d) (h2 : d < P.d_exit_low_cpa)
    (h3 : P.t_exit_low_cpa ≤ t) (h4 : t ≤ P.t_exit_up_cpa) :
    dsmUpdate P s enc d t = s := by
  have he : ¬ dsmEntry P d t := fun h => absurd h.1 (not_lt.mpr h1.le)
  have hx : ¬ dsmExit P d t := by
    unfold dsmExit
    push_neg
    exact ⟨h2, h3, h4⟩
  simp [dsmUpdate, he, hx]

/-- **C2** (counterexample).  With the manager's default thresholds, a target
in state `HEADON` that is classified `SAFE` while the exit predicate is false
(`d_at_cpa = 40 < 50`, `t_2_cpa = 100 ∈ [0, 650]`) stays in `HEADON`: the
claimed `X → SAFE` firing on classification `SAFE` alone does not happen,
because the source only attempts the `X → SAFE` transitions inside the
`if self._exit` block. -/
theorem C2_counterexample :
    dsmUpdate colavDsmParams .HEADON .SAFE 40 100 = .HEADON ∧
      Encounters.HEADON ≠ .SAFE ∧ ¬ dsmExit colavDsmParams (40 : ℚ) 100 := by
  have he : ¬ dsmEntry colavDsmParams (40 : ℚ) 100 := by
    norm_num [dsmEntry, colavDsmParams]
  have hx : ¬ dsmExit colavDsmParams (40 : ℚ) 100 := by
    norm_num [dsmExit, colavDsmParams]
  exact ⟨by simp [dsmUpdate, he, hx], by decide, hx⟩

/-- **C2** (amended).  For every non-`SAFE` state, if the exit predicate
holds then the state after `dsmUpdate` is `SAFE`; classification `SAFE`
alone, with the exit predicate false, does not trigger the transition. -/
theorem C2_exit_implies_safe {α : Type} [LinearOrderedField α]
    (P : DsmParams α) (s enc : Encounters) (d t : α)
    (hs : s ≠ .SAFE) (hx : dsmExit P d t) :
    dsmUpdate P s enc d t = .SAFE := by
  cases s <;> first
    | exact absurd rfl hs
    | simp [dsmUpdate, hx]

/-- Witness for `C2_exit_implies_safe` at the default thresholds. -/
theorem C2_exit_implies_safe_witness :
    (Encounters.HEADON ≠ .SAFE ∧ dsmExit colavDsmParams (100 : ℚ) 100) ∧
      dsmUpdate colavDsmParams .HEADON .SAFE (100 : ℚ) 100 = .SAFE :=
  ⟨⟨by decide, by norm_num [dsmExit, colavDsmParams]⟩,
    C2_exit_implies_safe colavDsmParams .HEADON .SAFE 100 100 (by decide)
      (by norm_num [dsmExit, colavDsmParams])⟩

/-- **C6** (counterexample).  With the manager's default thresholds, an
input with `d_at_cpa = 40` strictly inside the band `(37.5, 50)` but
`t_2_cpa = 700 > t_exit_up_cpa = 650` makes the exit predicate fire, so the
state changes from `HEADON` to `SAFE` on the first update: the claimed
invariance over the distance band alone is false. -/
theorem C6_counterexample :
    (colavDsmParams.d_enter_up_cpa < 40 ∧
        (40 : ℚ) < colavDsmParams.d_exit_low_cpa) ∧
      dsmUpdate colavDsmParams .HEADON .HEADON 40 700 = .SAFE ∧
        Encounters.SAFE ≠ .HEADON := by
  have he : ¬ dsmEntry colavDsmParams (40 : ℚ) 700 := by
    norm_num [dsmEntry, colavDsmParams]
  have hx : dsmExit colavDsmParams (40 : ℚ) 700 := by
    norm_num [dsmExit, colavDsmParams]
  exact ⟨by norm_num [colavDsmParams], by simp [dsmUpdate, he, hx], by decide⟩

/-- **C6** (amended).  Under constant inputs whose `d_at_cpa` lies strictly
between `d_enter_up_cpa` and `d_exit_low_cpa` and whose `t_2_cpa` lies in
the exit time window `[t_exit_low_cpa, t_exit_up_cpa]`, the FSM state is
unchanged by every update of the sequence. -/
theorem C6_band_invariant {α : Type} [LinearOrderedField α] (P : DsmParams α)
    (s enc : Encounters) (d t : α)
    (h1 : P.d_enter_up_cpa < d) (h2 : d < P.d_exit_low_cpa)
    (h3 : P.t_exit_low_cpa ≤ t) (h4 : t ≤ P.t_exit_up_cpa) (n : ℕ) :
    (fun st => dsmUpdate P st enc d t)^[n] s = s := by
  induction n with
  | zero => rfl
  | succ k ih =>
      rw [Function.iterate_succ_apply', ih,
        dsmUpdate_fixed P s enc d t h1 h2 h3 h4]

/-- Witness for `C6_band_invariant` at the default thresholds. -/
theorem C6_band_invariant_witness :
    (colavDsmParams.d_enter_up_cpa < (40 : ℚ) ∧
        (40 : ℚ) < colavDsmParams.d_exit_low_cpa ∧
        colavDsmParams.t_exit_low_cpa ≤ (100 : ℚ) ∧
        (100 : ℚ) ≤ colavDsmParams.t_exit_up_cpa) ∧
      (fun st => dsmUpdate colavDsmParams st .HEADON (40 : ℚ) 100)^[3]
          .GIVEWAY = .GIVEWAY :=
  ⟨⟨by norm_num [colavDsmParams], by norm_num [colavDsmParams],
      by norm_num [colavDsmParams], by norm_num [colavDsmParams]⟩,
    C6_band_invariant colavDsmParams .GIVEWAY .HEADON 40 100
      (by norm_num [colavDsmParams]) (by norm_num [colavDsmParams])
      (by norm_num [colavDsmParams]) (by norm_num [colavDsmParams]) 3⟩

/-- **C8** (code evaluated at the failing input).  `deg_2_dec(1000.0, "S")`
returns `+10`, not a negative value: the source rebinds `dir` to `1` before
the `dir == "S" or dir == "W"` test, so southern and western coordinates
keep a positive sign. -/
theorem C8_south_positive :
    deg_2_dec (1000 : ℚ) "S" = 10 ∧ (0 : ℚ) < deg_2_dec (1000 : ℚ) "S" := by
  constructor <;> norm_num [deg_2_dec, mathTrunc]

/-- **C9** (counterexample).  `kn_to_mps(1)` is `0.51444`, not the claimed
`0.514444`: `simulation_transform.__init__` stores `mps_in_kn = 0.51444`. -/
theorem C9_counterexample :
    kn_to_mps (1 : ℚ) = 51444 / 100000 ∧
      kn_to_mps (1 : ℚ) ≠ 514444 / 1000000 := by
  constructor <;> norm_num [kn_to_mps, mps_in_kn]

/-- **C9** (amended).  For every speed `k`, `kn_to_mps k = k · 0.51444`. -/
theorem C9_kn_to_mps (k : ℚ) : kn_to_mps k = k * (51444 / 100000) := by
  norm_num [kn_to_mps, mps_in_kn]

/-- **C7** (counterexample).  An inbound `cbf_domains` table missing the
`STANDON` class is not rejected: `update_cbf_domain_data` replaces the
whole in-memory table with it and persists it (`true`), because the source
performs no key validation. -/
theorem C7_counterexample :
    missingClassKey fiveKeyTable ∧
      update_cbf_domain_data (some fiveKeyTable) defaultCbfDomains =
        (fiveKeyTable, true) ∧
      ¬ dictEq fiveKeyTable defaultCbfDomains := by
  have h : ¬ dictEq defaultCbfDomains fiveKeyTable := by decide
  exact ⟨by decide, by simp [update_cbf_domain_data, h], by decide⟩

/-- **C7** (amended).  Whenever the received table differs (dict equality)
from the current one — in particular when it is missing encounter-class
keys — the update wholesale replaces the in-memory table and persists it;
no rejection occurs. -/
theorem C7_update_replaces (tbl current : DomainTable)
    (h : ¬ dictEq current tbl) :
    update_cbf_domain_data (some tbl) current = (tbl, true) := by
  simp [update_cbf_domain_data, h]

/-- Witness for `C7_update_replaces` on a table missing `STANDON`. -/
theorem C7_update_replaces_witness :
    (¬ dictEq defaultCbfDomains fiveKeyTable ∧ missingClassKey fiveKeyTable) ∧
      update_cbf_domain_data (some fiveKeyTable) defaultCbfDomains =
        (fiveKeyTable, true) :=
  ⟨⟨by decide, by decide⟩,
    C7_update_replaces fiveKeyTable defaultCbfDomains (by decide)⟩

/-- **C10** (confirmed).  While the own-ship latitude is still unset (no
GPRMC processed), `_send` on an AIS record (message id prefixed `"!AI"`)
leaves the whole server state unchanged: `_validate_coords` returns false,
so the record is neither forwarded nor delivered to the coordinator's AIS
map. -/
theorem C10_ais_dropped_before_gprmc (lp : List ℝ → List ℝ)
    (enu2geo : ℝ → ℝ → ℝ → ℝ → ℝ × ℝ) (st : ServerState) (msg : SimMsg)
    (h1 : st.gunnerus_lat = none)
    (h2 : strStarts "!AI" msg.message_id = true) :
    server_send lp enu2geo st msg = st := by
  have hne1 : ¬ msg.message_id = "$PSIMSNS" := by
    intro h; rw [h] at h2; exact absurd h2 (by decide)
  have hne2 : ¬ msg.message_id = "$GPGGA" := by
    intro h; rw [h] at h2; exact absurd h2 (by decide)
  have hne3 : ¬ msg.message_id = "$GPRMC" := by
    intro h; rw [h] at h2; exact absurd h2 (by decide)
  have hv : validate_coords st msg st.distance_filter = false := by
    simp [validate_coords, h1]
  simp [server_send, hne1, hne2, hne3, hv]

/-- Witness for `C10_ais_dropped_before_gprmc` on a fresh server state and a
concrete AIS record. -/
theorem C10_ais_dropped_before_gprmc_witness :
    (c10State.gunnerus_lat = none ∧
        strStarts "!AI" c10Msg.message_id = true) ∧
      server_send (fun l => l) (fun _ _ la lo => (la, lo)) c10State c10Msg =
        c10State :=
  ⟨⟨rfl, by decide⟩,
    C10_ais_dropped_before_gprmc (fun l => l) (fun _ _ la lo => (la, lo))
      c10State c10Msg rfl (by decide)⟩

end RVG
